import Mathlib

/-!
# Verification of the GalKav-Embedded gate controller

Shallow embedding of `src/main.cpp`: an ESP32 RFID gate controller that
reads a MIFARE card's UID, authenticates a budget block, writes/reads the
balance, decides authorization and renders the outcome.

Modelling conventions:
* The MFRC522 driver is an external collaborator; its behaviour on one tap
  is abstracted by a `CardLink` record (the status each primitive returns,
  and what data a reported-successful write actually leaves on the card).
* The globals `count`, `buffer`, `status` of the C++ file are the fields of
  `Machine`; the card's physical state (UID bytes, the 16-byte budget
  block) is `Card`.
* C++ `int` is 32-bit little-endian on the ESP32; `memcpy(buffer,&count,4)`
  is `encode4` and `memcpy(&count,buffer,4)` is `decode4`, two's complement
  over `Int` with explicit `% 2^32`.
-/

/-- `#define ENTRY_COST 10` (main.cpp line 30). -/
def ENTRY_COST : Int := 10

/-- `#define FIRST_BALANCE 100` (main.cpp line 31). -/
def FIRST_BALANCE : Int := 100

/-- The MFRC522 status codes the sketch distinguishes: it only ever tests
`status != MFRC522::STATUS_OK`, so one non-OK representative per failure
kind suffices. -/
inductive StatusCode where
  | STATUS_OK
  | STATUS_ERROR
  | STATUS_TIMEOUT
deriving DecidableEq, Repr

/-- Physical card state: UID bytes (`mfrc522.uid`) and the contents of the
16-byte budget block (`BUDGET_BLOCK`, sector 3 block 1). -/
structure Card where
  uid : List Nat
  block : List Nat
deriving DecidableEq, Repr

/-- One tap's view of the MFRC522 driver (external collaborator): the
status each primitive reports, and the data a reported-successful
`MIFARE_Write` actually leaves in the block (`writeEffect = id` for a
faithful link; anything else models silent write corruption). -/
structure CardLink where
  authStatus : StatusCode
  writeStatus : StatusCode
  readStatus : StatusCode
  writeEffect : List Nat → List Nat

/-- A faithful link: every primitive succeeds and the write stores exactly
the presented data. -/
def faithfulLink : CardLink :=
  { authStatus := .STATUS_OK
    writeStatus := .STATUS_OK
    readStatus := .STATUS_OK
    writeEffect := fun l => l }

/-- The sketch's global mutable state: `int count`, `byte buffer[18]`,
`MFRC522::StatusCode status` (main.cpp lines 46, 111-113). -/
structure Machine where
  count : Int
  buffer : List Nat
  status : StatusCode
deriving DecidableEq, Repr

/-- `memcpy(buffer, &count, sizeof(count))`: the 4 little-endian bytes of
the 32-bit two's complement representation of `i`. -/
def encode4 (i : Int) : List Nat :=
  let u := (i % 2 ^ 32).toNat
  [u % 256, u / 256 % 256, u / 256 / 256 % 256, u / 256 / 256 / 256 % 256]

/-- `memcpy(&count, buffer, sizeof(count))`: reassemble the leading 4
little-endian bytes into a signed 32-bit value. -/
def decode4 (l : List Nat) : Int :=
  let u : Nat := l.getD 0 0 + 256 * l.getD 1 0 + 256 ^ 2 * l.getD 2 0 + 256 ^ 3 * l.getD 3 0
  if u < 2 ^ 31 then (u : Int) else (u : Int) - 2 ^ 32

/-- Result of `readWriteCard`: updated card and globals, the number of
halt-session calls performed (`PICC_HaltA` + `PCD_StopCrypto1` pair), and
the balance value passed to `MIFARE_Write` when that call was executed. -/
structure RWResult where
  card : Card
  m : Machine
  halts : Nat
  written : Option Int
deriving Repr

/-- `readWriteCard()` (main.cpp lines 124-167), the per-tap card
transaction: authenticate; if `count >= 0` copy `count` into `buffer` and
write the block; bail out on a non-OK `status`; read the block back into
`buffer`; copy its leading 4 bytes into `count`; halt the session.
Note the write is skipped entirely when `count < 0`, leaving `status`
holding the authenticate result, and that the halt pair only runs on the
fully successful path. -/
def readWriteCard (link : CardLink) (card : Card) (m : Machine) : RWResult :=
  -- line 125: status = PCD_Authenticate(...)
  let m := { m with status := link.authStatus }
  if m.status ≠ StatusCode.STATUS_OK then
    -- lines 126-130: print and return
    ⟨card, m, 0, none⟩
  else
    -- lines 132-135: if (count >= 0) { memcpy(buffer,&count,4); status = MIFARE_Write(...) }
    let wr : Machine × Card × Option Int :=
      if 0 ≤ m.count then
        let buf := encode4 m.count ++ m.buffer.drop 4
        let card' :=
          if link.writeStatus = StatusCode.STATUS_OK then
            { card with block := (link.writeEffect (buf.take 16)) }
          else card
        ({ m with buffer := buf, status := link.writeStatus }, card', some m.count)
      else
        (m, card, none)
    let m := wr.1
    let card := wr.2.1
    if m.status ≠ StatusCode.STATUS_OK then
      -- lines 137-141: print and return
      ⟨card, m, 0, wr.2.2⟩
    else
      -- line 143: status = MIFARE_Read(BUDGET_BLOCK, buffer, &len)
      let m := { m with status := link.readStatus }
      if m.status ≠ StatusCode.STATUS_OK then
        -- lines 144-148: print and return
        ⟨card, m, 0, wr.2.2⟩
      else
        -- a successful MIFARE_Read fills the first 16 buffer bytes with the block
        let buf := card.block ++ m.buffer.drop 16
        -- line 150: memcpy(&count, buffer, sizeof(count))
        let m := { m with buffer := buf, count := decode4 (buf.take 4) }
        -- lines 151-152: PICC_HaltA(); PCD_StopCrypto1()
        ⟨card, m, 1, wr.2.2⟩

/-- The hex digit characters `0`-`9`, `a`-`f` used by Arduino
`String(value, HEX)`. -/
def hexDigit (n : Nat) : Char :=
  if n < 10 then Char.ofNat (48 + n) else Char.ofNat (87 + n)

/-- Arduino `String(b, HEX)` for a byte value: lowercase hex WITHOUT zero
padding — one digit for `b < 0x10`, two digits otherwise. -/
def byteToHexChars (b : Nat) : List Char :=
  if b < 16 then [hexDigit b] else [hexDigit (b / 16), hexDigit (b % 16)]

/-- The loop of main.cpp lines 174-178: append each UID byte's unpadded
hex rendering, left to right. -/
def hexChars : List Nat → List Char
  | [] => []
  | b :: rest => byteToHexChars b ++ hexChars rest

/-- The `String uid` accumulated by `cardInteraction` for a given UID byte
sequence. -/
def hexString (uid : List Nat) : String := String.mk (hexChars uid)

/-- The three outcomes the sketch can report, named after the display
routines: `cardInteractionOK` (spec: Authorized), `cardInteractionNoBalance`
(spec: DeniedInsufficientBalance), `cardInteractionNOT`
(spec: DeniedUnknownIdentifier). -/
inductive Outcome where
  | OK
  | NoBalance
  | NOT
deriving DecidableEq, Repr

/-- The decision chain of main.cpp lines 186-194, as a pure function of
the rendered UID string and the current balance. -/
def decideTap (uid myUID : String) (count : Int) : Outcome :=
  if uid = myUID ∧ 0 < count then Outcome.OK
  else if uid = myUID ∧ count ≤ 0 then Outcome.NoBalance
  else Outcome.NOT

/-- Result of a full tap (`cardInteraction`). -/
structure TapResult where
  card : Card
  m : Machine
  outcome : Outcome
  halts : Nat
  written : Option Int
deriving Repr

/-- `cardInteraction()` (main.cpp lines 169-195): render the UID, run
`readWriteCard`, then branch on `uid == myUID` and the (post-read) `count`;
the OK branch (`cardInteractionOK`, lines 198-206) deducts `ENTRY_COST`
from the in-memory `count`. -/
def cardInteraction (link : CardLink) (myUID : String) (card : Card) (m : Machine) :
    TapResult :=
  let uid := hexString card.uid
  let r := readWriteCard link card m
  let o := decideTap uid myUID r.m.count
  let m' :=
    if o = Outcome.OK then { r.m with count := r.m.count - ENTRY_COST } else r.m
  ⟨r.card, m', o, r.halts, r.written⟩

/-- `handleRoot()`'s reply (main.cpp lines 229-239): status, content type
and body of the HTTP response. -/
structure HttpResponse where
  statusCode : Nat
  contentType : String
  body : String
deriving Repr

/-- `handleRoot()` (main.cpp lines 229-239): builds the HTML page around
`String(count)` and sends it with `server.send(200, "text/html", html)`. -/
def handleRoot (count : Int) : HttpResponse :=
  let buff := "" ++ toString count
  let html := "<!DOCTYPE html><html><head><meta name=\"viewport\" content=\"width=device-width, initial-scale=1\">"
  let html := html ++ "<link rel=\"icon\" href=\"data:,\">"
  let html := html ++ "<style>html \x7b font-family: Helvetica; display: inline-block; margin: 0px auto; text-align: center;\x7d </style></head>"
  let html := html ++ "<body><h1>GAL KAV</h1>"
  let html := html ++ ("<p>Balance " ++ buff ++ "</p>")
  let html := html ++ "</body></html>"
  { statusCode := 200, contentType := "text/html", body := html }

/-- The routes registered on the web server: `setup()` registers exactly
one, `server.on("/", handleRoot)` (main.cpp line 76). -/
def registeredRoutes : List (String × (Int → HttpResponse)) :=
  [("/", handleRoot)]

/-! ## Concrete fixtures used by witnesses and counterexamples -/

/-- A link whose authenticate step fails. -/
def authFailLink : CardLink := { faithfulLink with authStatus := .STATUS_ERROR }

/-- A link whose write step fails (the spec's simulated link drop). -/
def writeFailLink : CardLink := { faithfulLink with writeStatus := .STATUS_ERROR }

/-- A link whose read step fails. -/
def readFailLink : CardLink := { faithfulLink with readStatus := .STATUS_ERROR }

/-- A link whose write reports success but silently stores the block
encoding 7 instead of the presented data. -/
def corruptLink : CardLink :=
  { faithfulLink with writeEffect := fun _ => encode4 7 ++ List.replicate 12 0 }

/-- The spec's scenario UID `0xAABBCCDD`. -/
def uidAB : List Nat := [0xAA, 0xBB, 0xCC, 0xDD]

/-- A card with UID `0xAABBCCDD` whose block stores balance `b`. -/
def cardB (b : Int) : Card := ⟨uidAB, encode4 b ++ List.replicate 12 0⟩

/-- Machine state with in-memory balance `b` and a fresh zero buffer. -/
def mB (b : Int) : Machine := ⟨b, List.replicate 18 0, .STATUS_OK⟩

/-- The configured authorized identifier rendering of `0xAABBCCDD`. -/
def myUIDab : String := "aabbccdd"

/-! ## C1: the authorization decision -/

/-- Helper: the decision chain rearranged with the identifier test first. -/
theorem decideTap_ite (uid myUID : String) (count : Int) :
    decideTap uid myUID count =
      if uid = myUID then (if 0 < count then Outcome.OK else Outcome.NoBalance)
      else Outcome.NOT := by
  rcases eq_or_ne uid myUID with h | h
  · rcases lt_or_le 0 count with hc | hc
    · simp [decideTap, h, hc]
    · simp [decideTap, h, hc, not_lt.mpr hc]
  · simp [decideTap, h]

/-- C1: for every identifier and every balance, the decision chain of
`cardInteraction` denies an unknown identifier regardless of the balance's
sign, and for the authorized identifier reports no-balance exactly when
`count ≤ 0` and OK otherwise — the unknown-identifier check taking
precedence over the balance check. -/
theorem C1_decide_characterization (uid myUID : String) (count : Int) :
    (uid ≠ myUID → decideTap uid myUID count = Outcome.NOT) ∧
      (uid = myUID →
        (decideTap uid myUID count = Outcome.NoBalance ↔ count ≤ 0) ∧
          (decideTap uid myUID count = Outcome.OK ↔ 0 < count)) := by
  rw [decideTap_ite]
  constructor
  · intro hne
    simp [hne]
  · intro he
    subst he
    rcases lt_or_le 0 count with hc | hc
    · simp [hc]
    · simp [not_lt.mpr hc]
      all_goals omega

/-! ## C7: balance encode/decode round trip -/

/-- Helper: the memcpy round trip on a representable 32-bit value. -/
theorem decode4_encode4 (b : Int) (h1 : -(2 ^ 31) ≤ b) (h2 : b < 2 ^ 31) :
    decode4 (encode4 b) = b := by
  simp only [encode4, decode4, List.getD_cons_zero, List.getD_cons_succ]
  split_ifs with h <;> omega

/-- Helper: `encode4` always produces exactly 4 bytes. -/
theorem encode4_length (i : Int) : (encode4 i).length = 4 := rfl

/-- Helper: the leading 4 bytes of the 16-byte block cut from an encoded
balance followed by old buffer bytes are the encoded balance. -/
theorem take4_take16_encode4 (i : Int) (rest : List Nat) :
    ((encode4 i ++ rest).take 16).take 4 = encode4 i := by
  rw [List.take_take]
  norm_num
  exact List.take_left' (encode4_length i)

/-- Helper: the same after further bytes are appended (the re-read buffer
keeps its stale tail). -/
theorem take4_take16_append_encode4 (i : Int) (rest rest2 : List Nat) :
    (((encode4 i ++ rest).take 16) ++ rest2).take 4 = encode4 i := by
  rw [List.take_append_of_le_length, take4_take16_encode4]
  rw [List.length_take, List.length_append, encode4_length]
  omega

/-- C7: for every representable signed 32-bit integer `b`, decoding the
block produced by encoding `b` (little-endian in the leading 4 bytes)
yields `b` again: `decode4 (encode4 b) = b`. -/
theorem C7_decode_encode_roundtrip (b : Int) (h1 : -(2 ^ 31) ≤ b) (h2 : b < 2 ^ 31) :
    decode4 (encode4 b) = b :=
  decode4_encode4 b h1 h2

/-- Witness for C7 at a negative and a positive concrete balance. -/
theorem C7_decode_encode_roundtrip_witness :
    decode4 (encode4 (-5)) = -5 ∧ decode4 (encode4 100) = 100 := by
  refine ⟨C7_decode_encode_roundtrip (-5) (by norm_num) (by norm_num), ?_⟩
  exact C7_decode_encode_roundtrip 100 (by norm_num) (by norm_num)

/-! ## Behaviour of `readWriteCard` over a faithful link -/

/-- Helper: taking the leading 4 bytes of an encoded balance followed by
anything yields the encoded balance. -/
theorem take4_append_encode4 (i : Int) (rest : List Nat) :
    (encode4 i ++ rest).take 4 = encode4 i :=
  List.take_left' (encode4_length i)

/-- Helper: on a faithful link with nonnegative balance, the block left on
the card is the 16-byte prefix of the written buffer. -/
theorem readWriteCard_faithful_block (card : Card) (m : Machine) (h : 0 ≤ m.count) :
    (readWriteCard faithfulLink card m).card.block =
      (encode4 m.count ++ m.buffer.drop 4).take 16 := by
  simp [readWriteCard, faithfulLink, h]

/-- Helper: on a faithful link the UID is untouched. -/
theorem readWriteCard_faithful_uid (card : Card) (m : Machine) (h : 0 ≤ m.count) :
    (readWriteCard faithfulLink card m).card.uid = card.uid := by
  simp [readWriteCard, faithfulLink, h]

/-- Helper: on a faithful link with representable nonnegative balance the
re-read leaves `count` unchanged. -/
theorem readWriteCard_faithful_count (card : Card) (m : Machine) (h : 0 ≤ m.count)
    (h2 : m.count < 2 ^ 31) :
    (readWriteCard faithfulLink card m).m.count = m.count := by
  have key : decode4 (encode4 m.count) = m.count := decode4_encode4 _ (by omega) h2
  simp [readWriteCard, faithfulLink, h, take4_take16_append_encode4,
    take4_append_encode4, key]

/-- Helper: on a faithful link with nonnegative balance the halt pair runs
exactly once. -/
theorem readWriteCard_faithful_halts (card : Card) (m : Machine) (h : 0 ≤ m.count) :
    (readWriteCard faithfulLink card m).halts = 1 := by
  simp [readWriteCard, faithfulLink, h]

/-! ## C8: no negative balance is ever written -/

/-- C8: in every state, every executed `MIFARE_Write` of the balance block
writes a value `≥ 0`: the write at main.cpp line 134 is guarded by
`count >= 0` (line 132). -/
theorem C8_written_nonneg (link : CardLink) (card : Card) (m : Machine) (v : Int)
    (h : (readWriteCard link card m).written = some v) : 0 ≤ v := by
  by_cases ha : link.authStatus = StatusCode.STATUS_OK <;>
    by_cases hc : 0 ≤ m.count <;>
      by_cases hw : link.writeStatus = StatusCode.STATUS_OK <;>
        by_cases hr : link.readStatus = StatusCode.STATUS_OK <;>
          simp [readWriteCard, ha, hc, hw, hr] at h <;> omega

/-- Witness for C8: on a faithful link from balance 100 the write is of
100, and the theorem yields `0 ≤ 100`. -/
theorem C8_written_nonneg_witness : (0 : Int) ≤ 100 :=
  C8_written_nonneg faithfulLink ⟨[0xAA], List.replicate 16 0⟩
    ⟨100, List.replicate 18 0, StatusCode.STATUS_OK⟩ 100 (by decide)

/-! ## C10: negative in-memory balance skips the write but not the read -/

/-- C10: when the in-memory balance is negative at the start of
`readWriteCard`, the write step is skipped (`written = none`, card
untouched), yet `status` still holds the successful authenticate result,
so the read step runs and the in-memory balance is replaced by the value
stored on the card, with no error reported. -/
theorem C10_negative_count_skips_write (link : CardLink) (card : Card) (m : Machine)
    (hcount : m.count < 0)
    (ha : link.authStatus = StatusCode.STATUS_OK)
    (hr : link.readStatus = StatusCode.STATUS_OK) :
    (readWriteCard link card m).written = none ∧
      (readWriteCard link card m).card = card ∧
      (readWriteCard link card m).m.count =
        decode4 ((card.block ++ m.buffer.drop 16).take 4) ∧
      (readWriteCard link card m).m.status = StatusCode.STATUS_OK ∧
      (readWriteCard link card m).halts = 1 := by
  simp [readWriteCard, ha, hr, not_le.mpr hcount]

/-- Witness for C10: balance `-3`, card storing 50 — the write is skipped
and the card's 50 replaces the in-memory balance. -/
theorem C10_negative_count_skips_write_witness :
    (readWriteCard faithfulLink ⟨[0xAA], encode4 50 ++ List.replicate 12 0⟩
        ⟨-3, List.replicate 18 0, StatusCode.STATUS_OK⟩).written = none ∧
      (readWriteCard faithfulLink ⟨[0xAA], encode4 50 ++ List.replicate 12 0⟩
          ⟨-3, List.replicate 18 0, StatusCode.STATUS_OK⟩).card =
        ⟨[0xAA], encode4 50 ++ List.replicate 12 0⟩ ∧
      (readWriteCard faithfulLink ⟨[0xAA], encode4 50 ++ List.replicate 12 0⟩
          ⟨-3, List.replicate 18 0, StatusCode.STATUS_OK⟩).m.count =
        decode4 ((encode4 50 ++ List.replicate 12 0 ++
          (List.replicate 18 0).drop 16).take 4) ∧
      (readWriteCard faithfulLink ⟨[0xAA], encode4 50 ++ List.replicate 12 0⟩
          ⟨-3, List.replicate 18 0, StatusCode.STATUS_OK⟩).m.status =
        StatusCode.STATUS_OK ∧
      (readWriteCard faithfulLink ⟨[0xAA], encode4 50 ++ List.replicate 12 0⟩
          ⟨-3, List.replicate 18 0, StatusCode.STATUS_OK⟩).halts = 1 :=
  C10_negative_count_skips_write faithfulLink
    ⟨[0xAA], encode4 50 ++ List.replicate 12 0⟩
    ⟨-3, List.replicate 18 0, StatusCode.STATUS_OK⟩
    (by decide) rfl rfl

/-- Witness for C1 at concrete inputs. -/
theorem C1_decide_characterization_witness :
    decideTap "1234" "aabbccdd" 5 = Outcome.NOT ∧
      (decideTap "aabbccdd" "aabbccdd" 0 = Outcome.NoBalance ↔ (0 : Int) ≤ 0) := by
  constructor
  · exact (C1_decide_characterization "1234" "aabbccdd" 5).1 (by decide)
  · exact ((C1_decide_characterization "aabbccdd" "aabbccdd" 0).2 rfl).1

/-! ## C2: post-transaction card balance -/

/-- C2 counterexample: from the synced state (in-memory 100, card 100,
authorized UID) the tap is Authorized and the in-memory balance becomes
90, but the balance persisted on the card still decodes to 100, not
`100 - ENTRY_COST`: the deduction happens after the card was written. -/
theorem C2_card_balance_not_deducted :
    (cardInteraction faithfulLink myUIDab (cardB 100) (mB 100)).outcome = Outcome.OK ∧
      (cardInteraction faithfulLink myUIDab (cardB 100) (mB 100)).m.count = 90 ∧
      decode4 ((cardInteraction faithfulLink myUIDab (cardB 100) (mB 100)).card.block.take 4) =
        100 ∧
      ¬ decode4 ((cardInteraction faithfulLink myUIDab (cardB 100) (mB 100)).card.block.take 4) =
          100 - ENTRY_COST := by
  decide

/-- C2 amended: after an Authorized tap with pre-transaction balance `B`
the in-memory balance equals `B - ENTRY_COST`, but the balance persisted
on the card (and hence what a read returns) is still `B`; the deducted
value is only persisted by the next tap's write step. -/
theorem C2_amended_deduction_deferred (myUID : String) (card : Card) (m : Machine)
    (B : Int) (hm : m.count = B) (huid : hexString card.uid = myUID)
    (hB0 : 0 < B) (hB1 : B < 2 ^ 31) :
    (cardInteraction faithfulLink myUID card m).outcome = Outcome.OK ∧
      (cardInteraction faithfulLink myUID card m).m.count = B - ENTRY_COST ∧
      decode4 ((cardInteraction faithfulLink myUID card m).card.block.take 4) = B ∧
      (ENTRY_COST ≤ B →
        decode4 ((readWriteCard faithfulLink
            (cardInteraction faithfulLink myUID card m).card
            (cardInteraction faithfulLink myUID card m).m).card.block.take 4) =
          B - ENTRY_COST) := by
  have h0 : 0 ≤ m.count := by omega
  have hcnt : (readWriteCard faithfulLink card m).m.count = m.count :=
    readWriteCard_faithful_count card m h0 (by omega)
  have houtcome : (cardInteraction faithfulLink myUID card m).outcome = Outcome.OK := by
    simp [cardInteraction, hcnt, hm, huid, decideTap_ite, hB0]
  have hcount : (cardInteraction faithfulLink myUID card m).m.count = B - ENTRY_COST := by
    simp [cardInteraction, hcnt, hm, huid, decideTap_ite, hB0]
  have hblock : (cardInteraction faithfulLink myUID card m).card.block =
      (encode4 B ++ m.buffer.drop 4).take 16 := by
    simp [cardInteraction, readWriteCard_faithful_block card m h0, hm]
  refine ⟨houtcome, hcount, ?_, ?_⟩
  · rw [hblock, take4_take16_encode4]
    exact decode4_encode4 B (by omega) hB1
  · intro hEC
    have hEC10 : (10 : Int) ≤ B := hEC
    have hcount10 : (cardInteraction faithfulLink myUID card m).m.count = B - 10 := hcount
    have h0' : 0 ≤ (cardInteraction faithfulLink myUID card m).m.count := by
      rw [hcount10]; omega
    rw [readWriteCard_faithful_block _ _ h0', take4_take16_encode4, hcount]
    exact decode4_encode4 _ (by simp only [ENTRY_COST]; omega)
      (by simp only [ENTRY_COST]; omega)

/-- Witness for C2's amended statement at `B = 100`. -/
theorem C2_amended_deduction_deferred_witness :
    (cardInteraction faithfulLink myUIDab (cardB 100) (mB 100)).outcome = Outcome.OK ∧
      (cardInteraction faithfulLink myUIDab (cardB 100) (mB 100)).m.count =
        100 - ENTRY_COST ∧
      decode4 ((cardInteraction faithfulLink myUIDab (cardB 100) (mB 100)).card.block.take 4) =
        100 ∧
      (ENTRY_COST ≤ (100 : Int) →
        decode4 ((readWriteCard faithfulLink
            (cardInteraction faithfulLink myUIDab (cardB 100) (mB 100)).card
            (cardInteraction faithfulLink myUIDab (cardB 100) (mB 100)).m).card.block.take 4) =
          100 - ENTRY_COST) :=
  C2_amended_deduction_deferred myUIDab (cardB 100) (mB 100) 100 rfl (by decide)
    (by decide) (by decide)

/-! ## C4: halt-session on every exit path -/

/-- C4 (refuted by the code): the halt pair (`PICC_HaltA` +
`PCD_StopCrypto1`) runs zero times on the authenticate-failure,
write-failure and read-failure exit paths, and once on the fully
successful path — so failing taps leak the authenticated session. -/
theorem C4_halt_skipped_on_failure_paths :
    (cardInteraction authFailLink myUIDab (cardB 100) (mB 100)).halts = 0 ∧
      (cardInteraction writeFailLink myUIDab (cardB 100) (mB 100)).halts = 0 ∧
      (cardInteraction readFailLink myUIDab (cardB 100) (mB 100)).halts = 0 ∧
      (cardInteraction faithfulLink myUIDab (cardB 100) (mB 100)).halts = 1 := by
  decide

/-! ## C3: readback verification -/

/-- C3 counterexample: a write whose readback decodes to 7 while the
intended new balance was 5 still produces the Authorized outcome — the
code performs no mismatch check and no `CommunicationFailure` outcome
exists. -/
theorem C3_mismatched_readback_still_authorized :
    (cardInteraction corruptLink myUIDab (cardB 5) (mB 5)).written = some 5 ∧
      decode4 ((cardInteraction corruptLink myUIDab (cardB 5) (mB 5)).card.block.take 4) = 7 ∧
      ¬ (7 : Int) = 5 ∧
      (cardInteraction corruptLink myUIDab (cardB 5) (mB 5)).outcome = Outcome.OK := by
  decide

/-- C3 amended: after every successful write the block is indeed re-read
and decoded, but the decoded value unconditionally replaces the in-memory
balance — whether or not it equals the intended new balance — and the
tap's outcome is computed from that re-read value by the ordinary decision
chain. -/
theorem C3_amended_readback_adopted_unconditionally (link : CardLink) (card : Card)
    (m : Machine) (myUID : String)
    (ha : link.authStatus = StatusCode.STATUS_OK)
    (hw : link.writeStatus = StatusCode.STATUS_OK)
    (hr : link.readStatus = StatusCode.STATUS_OK)
    (hc : 0 ≤ m.count) :
    (readWriteCard link card m).m.count =
      decode4 (((link.writeEffect ((encode4 m.count ++ m.buffer.drop 4).take 16)) ++
        (encode4 m.count ++ m.buffer.drop 4).drop 16).take 4) ∧
      (cardInteraction link myUID card m).outcome =
        decideTap (hexString card.uid) myUID (readWriteCard link card m).m.count := by
  constructor
  · simp [readWriteCard, ha, hw, hr, hc]
  · simp [cardInteraction]

/-- Witness for C3's amended statement on the corrupting link. -/
theorem C3_amended_readback_adopted_unconditionally_witness :
    (readWriteCard corruptLink (cardB 5) (mB 5)).m.count =
      decode4 (((corruptLink.writeEffect
          ((encode4 (mB 5).count ++ (mB 5).buffer.drop 4).take 16)) ++
        (encode4 (mB 5).count ++ (mB 5).buffer.drop 4).drop 16).take 4) ∧
      (cardInteraction corruptLink myUIDab (cardB 5) (mB 5)).outcome =
        decideTap (hexString (cardB 5).uid) myUIDab
          (readWriteCard corruptLink (cardB 5) (mB 5)).m.count :=
  C3_amended_readback_adopted_unconditionally corruptLink (cardB 5) (mB 5) myUIDab
    rfl rfl rfl (by decide)

/-! ## C5: communication failures and the reported outcome -/

/-- C5 counterexample: on a tap whose write step fails, the outcome is
`Outcome.OK` (Authorized) — not any communication-failure report — because
the decision chain runs on the stale in-memory balance; the card is left
unchanged. -/
theorem C5_write_failure_reported_as_authorized :
    (cardInteraction writeFailLink myUIDab (cardB 100) (mB 100)).outcome = Outcome.OK ∧
      (cardInteraction writeFailLink myUIDab (cardB 100) (mB 100)).card = cardB 100 := by
  decide

/-- Helper: on an authenticate failure the tap leaves the card and the
in-memory balance untouched, and the outcome is the ordinary decision on
the stale balance. -/
theorem tap_auth_failure_frame (link : CardLink) (card : Card) (m : Machine)
    (myUID : String) (ha : link.authStatus ≠ StatusCode.STATUS_OK) :
    (readWriteCard link card m).m.count = m.count ∧
      (cardInteraction link myUID card m).outcome =
        decideTap (hexString card.uid) myUID m.count ∧
      (cardInteraction link myUID card m).card = card := by
  refine ⟨?_, ?_, ?_⟩ <;> simp [cardInteraction, readWriteCard, ha]

/-- Helper: on an executed-write failure the tap leaves the card and the
in-memory balance untouched, and the outcome is the ordinary decision on
the stale balance. -/
theorem tap_write_failure_frame (link : CardLink) (card : Card) (m : Machine)
    (myUID : String) (ha : link.authStatus = StatusCode.STATUS_OK)
    (hw : link.writeStatus ≠ StatusCode.STATUS_OK) (hc : 0 ≤ m.count) :
    (readWriteCard link card m).m.count = m.count ∧
      (cardInteraction link myUID card m).outcome =
        decideTap (hexString card.uid) myUID m.count ∧
      (cardInteraction link myUID card m).card = card := by
  refine ⟨?_, ?_, ?_⟩ <;> simp [cardInteraction, readWriteCard, ha, hw, hc]

/-- Helper: on a read failure the in-memory balance is untouched and the
outcome is the ordinary decision on the stale balance (whatever the write
stage did). -/
theorem tap_read_failure_count (link : CardLink) (card : Card) (m : Machine)
    (myUID : String) (ha : link.authStatus = StatusCode.STATUS_OK)
    (hr : link.readStatus ≠ StatusCode.STATUS_OK) :
    (readWriteCard link card m).m.count = m.count ∧
      (cardInteraction link myUID card m).outcome =
        decideTap (hexString card.uid) myUID m.count := by
  by_cases hc : 0 ≤ m.count <;>
    by_cases hw : link.writeStatus = StatusCode.STATUS_OK <;>
      refine ⟨?_, ?_⟩ <;> simp [cardInteraction, readWriteCard, ha, hr, hc, hw]

/-- Helper: whenever authenticate or the write reports failure nothing is
stored, so the card is unchanged, whatever the other stages do. -/
theorem tap_card_unchanged_of_no_store (link : CardLink) (card : Card) (m : Machine)
    (myUID : String)
    (h : link.authStatus ≠ StatusCode.STATUS_OK ∨
      link.writeStatus ≠ StatusCode.STATUS_OK) :
    (cardInteraction link myUID card m).card = card := by
  by_cases ha : link.authStatus = StatusCode.STATUS_OK
  · rcases h with h | hw
    · exact absurd ha h
    · by_cases hc : 0 ≤ m.count <;>
        by_cases hr : link.readStatus = StatusCode.STATUS_OK <;>
          simp [cardInteraction, readWriteCard, ha, hw, hc, hr]
  · simp [cardInteraction, readWriteCard, ha]

/-- C5 amended: the code has no `CommunicationFailure` outcome. On every
tap on which a card-communication step fails — authenticate, an executed
write, or read — `readWriteCard` bails out early (the failure is only
logged to serial), the in-memory balance is left unchanged, and the
externally reported outcome is still one of the three decision outcomes,
computed by the ordinary decision chain from that unchanged balance; and
whenever authenticate or the write fails, nothing is stored, so the
on-card balance keeps its pre-transaction value. -/
theorem C5_amended_comm_failure_silent (link : CardLink) (card : Card) (m : Machine)
    (myUID : String)
    (h : link.authStatus ≠ StatusCode.STATUS_OK ∨
      (0 ≤ m.count ∧ link.writeStatus ≠ StatusCode.STATUS_OK) ∨
      link.readStatus ≠ StatusCode.STATUS_OK) :
    (readWriteCard link card m).m.count = m.count ∧
      (cardInteraction link myUID card m).outcome =
        decideTap (hexString card.uid) myUID m.count ∧
      ((link.authStatus ≠ StatusCode.STATUS_OK ∨
          link.writeStatus ≠ StatusCode.STATUS_OK) →
        (cardInteraction link myUID card m).card = card) := by
  by_cases ha : link.authStatus = StatusCode.STATUS_OK
  · rcases h with h | ⟨hc, hw⟩ | hr
    · exact absurd ha h
    · obtain ⟨h1, h2, h3⟩ := tap_write_failure_frame link card m myUID ha hw hc
      exact ⟨h1, h2, fun _ => h3⟩
    · obtain ⟨h1, h2⟩ := tap_read_failure_count link card m myUID ha hr
      exact ⟨h1, h2, fun g => tap_card_unchanged_of_no_store link card m myUID g⟩
  · obtain ⟨h1, h2, h3⟩ := tap_auth_failure_frame link card m myUID ha
    exact ⟨h1, h2, fun _ => h3⟩

/-- Witness for C5's amended statement on the failing-read link. -/
theorem C5_amended_comm_failure_silent_witness :
    (readWriteCard readFailLink (cardB 100) (mB 100)).m.count = (mB 100).count ∧
      (cardInteraction readFailLink myUIDab (cardB 100) (mB 100)).outcome =
        decideTap (hexString (cardB 100).uid) myUIDab (mB 100).count ∧
      ((readFailLink.authStatus ≠ StatusCode.STATUS_OK ∨
          readFailLink.writeStatus ≠ StatusCode.STATUS_OK) →
        (cardInteraction readFailLink myUIDab (cardB 100) (mB 100)).card = cardB 100) :=
  C5_amended_comm_failure_silent readFailLink (cardB 100) (mB 100) myUIDab
    (Or.inr (Or.inr (by decide)))

/-! ## C6: identifier comparison -/

/-- C6 counterexample: the UID rendering is UNPADDED hex, so the two
different length-4 byte sequences `[0x01,0x23,0x45,0x67]` and
`[0x12,0x34,0x56,0x07]` render to the same string "1234567" and compare
equal; a card with the second UID is authorized against the first's
configured rendering. -/
theorem C6_distinct_uids_compare_equal :
    hexString [0x01, 0x23, 0x45, 0x67] = hexString [0x12, 0x34, 0x56, 0x07] ∧
      [0x01, 0x23, 0x45, 0x67] ≠ ([0x12, 0x34, 0x56, 0x07] : List Nat) ∧
      ([0x01, 0x23, 0x45, 0x67] : List Nat).length = 4 ∧
      (cardInteraction faithfulLink (hexString [0x01, 0x23, 0x45, 0x67])
          ⟨[0x12, 0x34, 0x56, 0x07], encode4 100 ++ List.replicate 12 0⟩
          (mB 100)).outcome = Outcome.OK := by
  decide

/-- Helper: `hexDigit` is injective below 16. -/
theorem hexDigit_inj : ∀ x < 16, ∀ y < 16, hexDigit x = hexDigit y → x = y := by
  decide

/-- Helper: a byte `≥ 0x10` renders to exactly two characters. -/
theorem byteToHexChars_length_two (b : Nat) (h : 16 ≤ b) :
    (byteToHexChars b).length = 2 := by
  simp [byteToHexChars, Nat.not_lt.mpr h]

/-- Helper: no byte renders to the empty string. -/
theorem byteToHexChars_ne_nil (b : Nat) : byteToHexChars b ≠ [] := by
  unfold byteToHexChars
  split <;> simp

/-- Helper: the two-digit rendering is injective on bytes in `[0x10, 0x100)`. -/
theorem byteToHexChars_inj (a b : Nat) (ha1 : 16 ≤ a) (ha2 : a < 256)
    (hb1 : 16 ≤ b) (hb2 : b < 256) (h : byteToHexChars a = byteToHexChars b) :
    a = b := by
  simp only [byteToHexChars, Nat.not_lt.mpr ha1, if_false, Nat.not_lt.mpr hb1,
    List.cons.injEq, and_true] at h
  obtain ⟨h1, h2⟩ := h
  have e1 : a / 16 = b / 16 := hexDigit_inj (a / 16) (by omega) (b / 16) (by omega) h1
  have e2 : a % 16 = b % 16 := hexDigit_inj (a % 16) (by omega) (b % 16) (by omega) h2
  omega

/-- Helper: the rendered UID determines the byte sequence when every byte
is `≥ 0x10`. -/
theorem hexChars_inj : ∀ l1 l2 : List Nat,
    (∀ b ∈ l1, 16 ≤ b ∧ b < 256) → (∀ b ∈ l2, 16 ≤ b ∧ b < 256) →
    hexChars l1 = hexChars l2 → l1 = l2 := by
  intro l1
  induction l1 with
  | nil =>
    intro l2 _ _ h
    cases l2 with
    | nil => rfl
    | cons b t =>
      exfalso
      simp only [hexChars] at h
      exact byteToHexChars_ne_nil b (List.append_eq_nil.mp h.symm).1
  | cons a t ih =>
    intro l2 h1 h2 h
    cases l2 with
    | nil =>
      exfalso
      simp only [hexChars] at h
      exact byteToHexChars_ne_nil a (List.append_eq_nil.mp h).1
    | cons b t2 =>
      simp only [hexChars] at h
      have hma := h1 a (List.mem_cons_self a t)
      have hmb := h2 b (List.mem_cons_self b t2)
      obtain ⟨hhead, htail⟩ := List.append_inj h
        (by rw [byteToHexChars_length_two a hma.1, byteToHexChars_length_two b hmb.1])
      have hab : a = b :=
        byteToHexChars_inj a b hma.1 hma.2 hmb.1 hmb.2 hhead
      subst hab
      rw [ih t2 (fun x hx => h1 x (List.mem_cons_of_mem a hx))
        (fun x hx => h2 x (List.mem_cons_of_mem a hx)) htail]

/-- C6 amended: the card identifier is compared by equality of unpadded
lowercase hex renderings, not raw byte-sequence equality; the comparison
coincides with exact byte-sequence equality precisely when it is restricted
to sequences all of whose bytes are `≥ 0x10` (bytes below `0x10` lose
their leading zero, which makes distinct sequences render identically). -/
theorem C6_amended_hex_comparison (l1 l2 : List Nat)
    (h1 : ∀ b ∈ l1, 16 ≤ b ∧ b < 256) (h2 : ∀ b ∈ l2, 16 ≤ b ∧ b < 256) :
    hexString l1 = hexString l2 ↔ l1 = l2 := by
  constructor
  · intro h
    have hd := congrArg String.data h
    simp only [hexString] at hd
    exact hexChars_inj l1 l2 h1 h2 hd
  · intro h
    rw [h]

/-- Witness for C6's amended statement on the scenario UID bytes. -/
theorem C6_amended_hex_comparison_witness :
    (hexString [0xAA, 0xBB, 0xCC, 0xDD] = hexString [0xAA, 0xBB, 0xCC, 0xDD] ↔
      ([0xAA, 0xBB, 0xCC, 0xDD] : List Nat) = [0xAA, 0xBB, 0xCC, 0xDD]) :=
  C6_amended_hex_comparison [0xAA, 0xBB, 0xCC, 0xDD] [0xAA, 0xBB, 0xCC, 0xDD]
    (by decide) (by decide)

/-! ## C9: the network status endpoint -/

/-- C9: for every balance, `GET /` is answered with status 200, content
type `text/html`, and a body that renders the current balance as plain
text inside the minimal page; and `/` with `handleRoot` is the only
registered route (no other route or network write operation exists). -/
theorem C9_root_status_page (count : Int) :
    (handleRoot count).statusCode = 200 ∧
      (handleRoot count).contentType = "text/html" ∧
      (∃ pre post : String,
        (handleRoot count).body = pre ++ (toString count ++ post)) ∧
      registeredRoutes.map Prod.fst = ["/"] := by
  refine ⟨rfl, rfl, ?_, rfl⟩
  refine ⟨((("<!DOCTYPE html><html><head><meta name=\"viewport\" content=\"width=device-width, initial-scale=1\">" ++
      "<link rel=\"icon\" href=\"data:,\">") ++
      "<style>html \x7b font-family: Helvetica; display: inline-block; margin: 0px auto; text-align: center;\x7d </style></head>") ++
      "<body><h1>GAL KAV</h1>") ++ "<p>Balance ",
    "</p>" ++ "</body></html>", ?_⟩
  simp only [handleRoot, String.empty_append, String.append_assoc]

/-- Witness for C9 (the statement's only binder is the balance, but we
record a concrete closed instance anyway). -/
theorem C9_root_status_page_witness :
    (handleRoot 90).statusCode = 200 ∧
      (handleRoot 90).contentType = "text/html" ∧
      (∃ pre post : String, (handleRoot 90).body = pre ++ (toString (90 : Int) ++ post)) ∧
      registeredRoutes.map Prod.fst = ["/"] :=
  C9_root_status_page 90
